import Mathlib

/-!
# git_salt: the command router, the worker queue and its tasks

A shallow embedding of `ide/web/lib/git_salt/git_salt.cc` (class `FileIoInstance`).

* The browser side is a list of posted messages (`State.posted`), the file thread's
  message loop is a first-in first-out list of bound callbacks (`State.queue`).
* External collaborators are parameters (`Env`): the result of `file_system_.Open`,
  the size of `size_t`, and libgit2's `git_clone` / `giterr_last`.
* Calls into nacl_io (`umount`, `mount`) and into libgit2 (`git_clone`) are recorded
  in the state, argument by argument, in the order the source passes them.
* Undefined behaviour of the C++ code (a `strcpy` past the end of a `malloc`ed
  buffer, a read through a null `git_error*`) is the result `none`.
* The functions named `...Progress` follow the same code as total functions: they give
  the state reached when the code ends or when its behaviour becomes undefined, and
  a flag that tells which of the two happened.
-/

namespace GitSalt

/-! ## pp::Var -/

/-- The value kinds of `pp::Var` (PP_VarType). A double is kept as its bit pattern. -/
inductive Var where
  | undefined
  | null
  | bool (b : Bool)
  | int (i : Int)
  | double (bits : Nat)
  | string (s : String)
  | object
  | array (xs : List Var)
  | dictionary (kv : List (String × Var))
  | resource (r : Int)
  | array_buffer

namespace Var

/-- Method `pp::Var::is_dictionary`. -/
def is_dictionary : Var → Bool
  | dictionary _ => true
  | _ => false

/-- Method `pp::Var::is_resource`. -/
def is_resource : Var → Bool
  | resource _ => true
  | _ => false

/-- Method `pp::Var::is_string`. -/
def is_string : Var → Bool
  | string _ => true
  | _ => false

/-- Method `pp::Var::AsString`: the string, or the empty string for another kind. -/
def AsString : Var → String
  | string s => s
  | _ => ""

/-- Method `pp::Var::AsResource`, with the `pp::Resource` and the `pp::FileSystem` made
from it kept as the resource id `pp_resource()` returns: the id, or 0. -/
def AsResource : Var → Int
  | resource r => r
  | _ => 0

/-- Lookup in the key/value pairs of a dictionary; an undefined var for a missing key. -/
def lookup (key : String) : List (String × Var) → Var
  | [] => undefined
  | (k, v) :: rest => if k = key then v else lookup key rest

/-- Method `pp::VarDictionary(var).Get(key)`: a non-dictionary var gives an empty dictionary. -/
def Get (v : Var) (key : String) : Var :=
  match v with
  | dictionary kv => lookup key kv
  | _ => undefined

end Var

/-! ## The instance state -/

/-- A callback bound by `callback_factory_.NewCallback` and posted to the file thread;
the arguments are the bound arguments in the order of the method's parameters. -/
inductive Task where
  | OpenFileSystem
  | GitClone (path url : String)
  | ChromefsInit (fs : Int) (fullPath : String)
  | cloning (path url : String)
  deriving DecidableEq, Repr

/-- An argument expression of a C call, as written at the call site. -/
inductive CArg where
  | str (s : String)
  | num (n : Int)
  deriving DecidableEq, Repr

/-- A call into nacl_io with its arguments in call order. -/
inductive FsCall where
  | nacl_io_init_ppapi
  | umount (target : String)
  | mount (args : List CArg)
  deriving DecidableEq, Repr

/-- The fields of libgit2's `git_error`. -/
structure git_error where
  message : String
  klass : Int
  deriving DecidableEq, Repr

/-- A call of `git_clone(&repo, url, local_path, NULL)`, in libgit2's parameter order. -/
structure GitCloneCall where
  url : String
  local_path : String
  deriving DecidableEq, Repr

/-- What the instance's surroundings decide. -/
structure Env where
  /-- Size `sizeof(size_t)`, the value of `sizeof(strlen(...))`: 4 on NaCl, 8 on LP64. -/
  sizeof_size_t : Nat
  /-- The result of `file_system_.Open(1024 * 1024, pp::BlockUntilComplete())`. -/
  open_rv : Int
  /-- The return code of `git_clone` for a url and a local path. -/
  git_clone : String → String → Int
  /-- The result of `giterr_last()` after the given engine calls; `none` is NULL. -/
  giterr_last : List GitCloneCall → Option git_error

/-- The observable state of a `FileIoInstance` and of its surroundings. -/
structure State where
  /-- Messages sent by `PostMessage`, oldest first. -/
  posted : List String
  /-- Work posted to `file_thread_.message_loop()` and not yet started, oldest first. -/
  queue : List Task
  /-- The member `file_system_ready_`. -/
  file_system_ready_ : Bool
  /-- Calls into nacl_io, oldest first. -/
  fscalls : List FsCall
  /-- Calls of `git_clone`, oldest first. -/
  gitcalls : List GitCloneCall
  /-- What `printf` wrote. -/
  stdout : List String
  /-- The tasks the file thread has taken from the queue and run, oldest first. -/
  ran : List Task
  deriving DecidableEq, Repr

/-- The state the constructor leaves: `file_system_ready_(false)`, nothing posted. -/
def FileIoInstance : State :=
  { posted := [], queue := [], file_system_ready_ := false, fscalls := [],
    gitcalls := [], stdout := [], ran := [] }

/-- Constant `PP_OK` of `ppapi/c/pp_errors.h`. -/
def PP_OK : Int := 0

/-- Method `pp::Instance::PostMessage`. -/
def PostMessage (s : State) (message : String) : State :=
  { s with posted := s.posted ++ [message] }

/-- Call `file_thread_.message_loop().PostWork(callback)`. -/
def PostWork (s : State) (t : Task) : State :=
  { s with queue := s.queue ++ [t] }

/-- The `printf` calls of the source, with the format already expanded. -/
def printf (s : State) (text : String) : State :=
  { s with stdout := s.stdout ++ [text] }

/-! ## C strings -/

/-- Three-way comparison of character sequences, the sign of `std::string::compare`. -/
def compareChars : List Char → List Char → Int
  | [], [] => 0
  | [], _ :: _ => -1
  | _ :: _, [] => 1
  | a :: as, b :: bs =>
    if a.toNat < b.toNat then -1
    else if b.toNat < a.toNat then 1
    else compareChars as bs

/-- Call `a.compare(b)` for `std::string a` and a string literal `b`. -/
def compare (a b : String) : Int := compareChars a.data b.data

/-- The C string `std::string::c_str()` points to: the characters before the first NUL. -/
def c_str (s : String) : String :=
  String.mk (s.data.takeWhile (fun c => c != Char.ofNat 0))

/-- Function `strlen`: the number of bytes before the terminating NUL. -/
def strlen (cs : String) : Nat := cs.utf8ByteSize

/-- Call `strcpy(dst, src)` into a buffer of `cap` bytes obtained from `malloc(cap)`:
the copied string, or `none` when `src` and its NUL do not fit. -/
def strcpy (cap : Nat) (src : String) : Option String :=
  if strlen src + 1 ≤ cap then some src else none

/-- The text `operator<<(int)` and `%d` produce for a signed integer. -/
def decimal (i : Int) : String := toString i

/-! ## The status protocol -/

/-- Method `FileIoInstance::ShowErrorMessage`. -/
def ShowErrorMessage (s : State) (message : String) (result : Int) : State :=
  let ss := "ERR|" ++ message ++ " -- Error #: " ++ decimal result
  PostMessage s ss

/-- Method `FileIoInstance::ShowStatusMessage`. -/
def ShowStatusMessage (s : State) (message : String) : State :=
  let ss := "STAT|" ++ message
  PostMessage s ss

/-! ## The command router -/

/-- Method `FileIoInstance::Init`: posts `OpenFileSystem` to the file thread and
returns true. -/
def Init (s : State) : State × Bool :=
  (PostWork s Task.OpenFileSystem, true)

/-- Method `FileIoInstance::HandleMessage`. -/
def HandleMessage (s : State) (var_message : Var) : State :=
  if !var_message.is_dictionary then
    PostMessage s "Error: Message was not a dictionary."
  else
    let var_filesystem := var_message.Get "filesystem"
    let var_fullpath := var_message.Get "fullPath"
    let var_url := var_message.Get "url"
    let var_cmd := var_message.Get "cmd"
    if !var_filesystem.is_resource then
      PostMessage s "Error: filesystem was missing or not a resource."
    else
      let filesystem := var_filesystem.AsResource
      if !var_fullpath.is_string then
        PostMessage s "Error: fullPath was missing or not a string."
      else
        let fullpath := var_fullpath.AsString
        if !var_url.is_string then
          PostMessage s "Error: url was missing or not a string."
        else
          let url := var_url.AsString
          if !var_cmd.is_string then
            PostMessage s "Error: cmd was missing or not a string."
          else
            let cmd := var_cmd.AsString
            if compare cmd "clone" = 0 then
              PostWork s (Task.GitClone fullpath url)
            else
              PostWork s (Task.ChromefsInit filesystem fullpath)

/-! ## The tasks of the file thread -/

/-- Method `FileIoInstance::cloning`: after `git_threads_init()`, which the state does
not record, it calls `git_clone(&repo, url, path, NULL)` and returns its code. -/
def cloning (env : Env) (s : State) (path url : String) : State × Int :=
  ({ s with gitcalls := s.gitcalls ++ [{ url := url, local_path := path }] },
   env.git_clone url path)

/-- Method `FileIoInstance::do_clone`: posts `cloning` bound to `(path, url)` and
returns 1. -/
def do_clone (s : State) (url path : String) : State × Int :=
  (PostWork s (Task.cloning path url), 1)

/-- Method `FileIoInstance::GitClone`. Both buffers are `malloc(sizeof(strlen(...)))`,
that is `sizeof(size_t)` bytes; `a->message` reads through the result of `giterr_last()`. -/
def GitClone (env : Env) (s : State) (path url : String) : Option State :=
  let local_path_string := c_str path
  let url_string := c_str url
  let s1 := printf s ("Lengths: " ++ decimal (strlen local_path_string) ++ " "
    ++ decimal (strlen url_string) ++ "\n")
  match strcpy env.sizeof_size_t local_path_string with
  | none => none
  | some local_path =>
    match strcpy env.sizeof_size_t url_string with
    | none => none
    | some repourl =>
      let s2 := (do_clone s1 repourl local_path).1
      let s3 := printf s2 ("calling git clone " ++ local_path ++ " " ++ repourl ++ "\n")
      match env.giterr_last s3.gitcalls with
      | none => none
      | some a => some (printf s3 (a.message ++ "\n"))

/-- Method `FileIoInstance::NaclIoInit`. In the last `mount` call the comment opened after
`"/http",` (`/* target *`) is closed only by the `*/` that ends the next line, so the
argument `"httpfs",` is comment text and the call has the four arguments listed here. -/
def NaclIoInit (s : State) : State :=
  let s := { s with fscalls := s.fscalls ++ [FsCall.nacl_io_init_ppapi] }
  let s := { s with fscalls := s.fscalls ++ [FsCall.umount "/"] }
  let s := { s with fscalls := s.fscalls ++
    [FsCall.mount [.str "", .str "/", .str "memfs", .num 0, .str ""]] }
  let s := { s with fscalls := s.fscalls ++
    [FsCall.mount [.str "", .str "/grvfs", .str "html5fs", .num 0,
      .str "type=PERSISTENT,expected_size=1048576"]] }
  let s := { s with fscalls := s.fscalls ++
    [FsCall.mount [.str "", .str "/http", .num 0, .str ""]] }
  printf s "mounted all filesystem!!\n"

/-- Method `FileIoInstance::OpenFileSystem`. -/
def OpenFileSystem (env : Env) (s : State) : State :=
  let rv := env.open_rv
  let s :=
    if rv = PP_OK then
      PostMessage { s with file_system_ready_ := true } "READY|"
    else
      ShowErrorMessage s "Failed to open file system" rv
  NaclIoInit s

/-- Method `FileIoInstance::ChromefsInit`. -/
def ChromefsInit (s : State) (fs : Int) (fullPath : String) : State :=
  let r := fs
  let fs_resource := "filesystem_resource=" ++ decimal r
  let s := { s with fscalls := s.fscalls ++
    [FsCall.mount [.str (c_str fullPath), .str "/chromefs", .str "html5fs", .num 0,
      .str fs_resource]] }
  ShowStatusMessage s fs_resource

/-! ## The file thread -/

/-- Running one bound callback on the file thread. -/
def runTask (env : Env) (s : State) : Task → Option State
  | Task.OpenFileSystem => some (OpenFileSystem env s)
  | Task.GitClone path url => GitClone env s path url
  | Task.ChromefsInit fs fullPath => some (ChromefsInit s fs fullPath)
  | Task.cloning path url => some (cloning env s path url).1

/-- The message loop takes the oldest posted work and runs it to completion;
with nothing posted it waits. -/
def workerStep (env : Env) (s : State) : Option State :=
  match s.queue with
  | [] => some s
  | t :: rest => runTask env { s with queue := rest, ran := s.ran ++ [t] } t

/-- What happens next: the browser delivers a message, or the file thread takes work. -/
inductive Event where
  | message (v : Var)
  | work

/-- One event. -/
def step (env : Env) (s : State) : Event → Option State
  | Event.message v => some (HandleMessage s v)
  | Event.work => workerStep env s

/-- A sequence of events, stopping at undefined behaviour. -/
def run (env : Env) (s : State) : List Event → Option State
  | [] => some s
  | e :: es => (step env s e).bind (fun s1 => run env s1 es)

/-! ## The same code, followed up to the point of undefined behaviour -/

/-- Method `FileIoInstance::GitClone` once more, statement by statement as in `GitClone`,
but total: the state reached, and whether the method ran to its end (`true`) or
stopped where its behaviour becomes undefined (`false`): at the first `strcpy` that
does not fit its `sizeof(size_t)`-byte buffer, or at `a->message` when
`giterr_last()` is null. -/
def GitCloneProgress (env : Env) (s : State) (path url : String) : State × Bool :=
  let local_path_string := c_str path
  let url_string := c_str url
  let s1 := printf s ("Lengths: " ++ decimal (strlen local_path_string) ++ " "
    ++ decimal (strlen url_string) ++ "\n")
  match strcpy env.sizeof_size_t local_path_string with
  | none => (s1, false)
  | some local_path =>
    match strcpy env.sizeof_size_t url_string with
    | none => (s1, false)
    | some repourl =>
      let s2 := (do_clone s1 repourl local_path).1
      let s3 := printf s2 ("calling git clone " ++ local_path ++ " " ++ repourl ++ "\n")
      match env.giterr_last s3.gitcalls with
      | none => (s3, false)
      | some a => (printf s3 (a.message ++ "\n"), true)

/-- Running one bound callback on the file thread, up to undefined behaviour. -/
def runTaskProgress (env : Env) (s : State) : Task → State × Bool
  | Task.OpenFileSystem => (OpenFileSystem env s, true)
  | Task.GitClone path url => GitCloneProgress env s path url
  | Task.ChromefsInit fs fullPath => (ChromefsInit s fs fullPath, true)
  | Task.cloning path url => ((cloning env s path url).1, true)

/-- One step of the message loop, up to undefined behaviour. -/
def workerStepProgress (env : Env) (s : State) : State × Bool :=
  match s.queue with
  | [] => (s, true)
  | t :: rest => runTaskProgress env { s with queue := rest, ran := s.ran ++ [t] } t

/-- A sequence of events, followed until the first undefined behaviour: the state
reached, and whether every event was handled. -/
def runProgress (env : Env) (s : State) : List Event → State × Bool
  | [] => (s, true)
  | Event.message v :: es => runProgress env (HandleMessage s v) es
  | Event.work :: es =>
    match workerStepProgress env s with
    | (s1, true) => runProgress env s1 es
    | (s1, false) => (s1, false)

/-! ## Concrete surroundings and payloads used in the examples -/

/-- An environment with the 4-byte `size_t` of NaCl in which opening the default area
returns `rv`, every `git_clone` returns `rc` and `giterr_last` always returns `last`. -/
def exampleEnv (rv rc : Int) (last : Option git_error) : Env :=
  { sizeof_size_t := 4, open_rv := rv, git_clone := (fun _ _ => rc),
    giterr_last := (fun _ => last) }

/-- The inbound dictionary of a command with all four fields. -/
def command (fs : Int) (fullPath url cmd : String) : Var :=
  Var.dictionary [("filesystem", Var.resource fs), ("fullPath", Var.string fullPath),
    ("url", Var.string url), ("cmd", Var.string cmd)]

/-- The state after Init, the mount command `command 7 "/a" "u" "mount"` and one step
of the file thread with a successful open: the mount task is the next to start. -/
def mountPendingExample : State :=
  { posted := ["READY|"],
    queue := [Task.ChromefsInit 7 "/a"],
    file_system_ready_ := true,
    fscalls := [FsCall.nacl_io_init_ppapi, FsCall.umount "/",
      FsCall.mount [.str "", .str "/", .str "memfs", .num 0, .str ""],
      FsCall.mount [.str "", .str "/grvfs", .str "html5fs", .num 0,
        .str "type=PERSISTENT,expected_size=1048576"],
      FsCall.mount [.str "", .str "/http", .num 0, .str ""]],
    gitcalls := [],
    stdout := ["mounted all filesystem!!\n"],
    ran := [Task.OpenFileSystem] }

/-- The decimal rendering of a signed code as the specification words it: the digits
of the magnitude, with a leading `-` for a negative code. -/
def decimalText (c : Int) : String :=
  if c < 0 then "-" ++ Nat.repr c.natAbs else Nat.repr c.natAbs

/-- The readiness states of the specification's data model. -/
inductive ReadinessState where
  | Uninitialized
  | Opening
  | Ready
  | Failed
  deriving DecidableEq, Repr

/-- The readiness of the root area as the specification describes it, read off the
instance: Uninitialized until the open task has run, then Ready or Failed according
to `file_system_ready_`. -/
def readiness (s : State) : ReadinessState :=
  if Task.OpenFileSystem ∈ s.ran then
    (if s.file_system_ready_ then ReadinessState.Ready else ReadinessState.Failed)
  else ReadinessState.Uninitialized

/-- The invariant of the instance after Init: either the file thread has run nothing,
the open task is the oldest posted work and the readiness flag is still false, or the
open task is the first task the file thread ran and the readiness flag records
whether the open succeeded. -/
def OpenFirst (env : Env) (s : State) : Prop :=
  (s.ran = [] ∧ (∃ rest, s.queue = Task.OpenFileSystem :: rest)
      ∧ s.file_system_ready_ = false)
  ∨ ((∃ r, s.ran = Task.OpenFileSystem :: r)
      ∧ (s.file_system_ready_ = true ↔ env.open_rv = PP_OK))

/-! ## Auxiliary lemmas -/

lemma compareChars_eq_zero_iff (as bs : List Char) : compareChars as bs = 0 ↔ as = bs := by
  induction as generalizing bs with
  | nil => cases bs <;> simp [compareChars]
  | cons a as ih =>
    cases bs with
    | nil => simp [compareChars]
    | cons b bs =>
      simp only [compareChars, List.cons.injEq]
      by_cases h1 : a.toNat < b.toNat
      · have hne : a ≠ b := fun h => by subst h; exact lt_irrefl _ h1
        simp [h1, hne]
      · by_cases h2 : b.toNat < a.toNat
        · have hne : a ≠ b := fun h => by subst h; exact lt_irrefl _ h2
          simp [h1, h2, hne]
        · have hab : a = b := Char.ext (UInt32.ext (le_antisymm (not_lt.mp h2) (not_lt.mp h1)))
          simp [h1, h2, hab, ih]

lemma compare_eq_zero_iff (a b : String) : compare a b = 0 ↔ a = b := by
  unfold compare
  rw [compareChars_eq_zero_iff]
  constructor
  · intro h; exact String.ext h
  · intro h; rw [h]

lemma decimal_eq_decimalText (c : Int) : decimal c = decimalText c := by
  unfold decimal decimalText
  cases c with
  | ofNat n =>
    have h : ¬ (Int.ofNat n < 0) := not_lt.mpr (Int.ofNat_nonneg n)
    rw [if_neg h]
    rfl
  | negSucc n =>
    have h : Int.negSucc n < 0 := Int.negSucc_lt_zero n
    rw [if_pos h]
    rfl

/-! ## The command router: theorems -/

/-- The accepting path of HandleMessage: with a resource filesystem and string
fullPath, url and cmd the only change is one task at the end of the queue. -/
lemma HandleMessage_enqueues (s : State) (kv : List (String × Var))
    (fs : Int) (p u c : String)
    (hfs : (Var.dictionary kv).Get "filesystem" = Var.resource fs)
    (hp : (Var.dictionary kv).Get "fullPath" = Var.string p)
    (hu : (Var.dictionary kv).Get "url" = Var.string u)
    (hc : (Var.dictionary kv).Get "cmd" = Var.string c) :
    HandleMessage s (Var.dictionary kv) =
        { s with queue := s.queue ++
            [if c = "clone" then Task.GitClone p u else Task.ChromefsInit fs p] } := by
  simp only [HandleMessage, hfs, hp, hu, hc, Var.is_dictionary, Var.is_resource,
    Var.is_string, Var.AsString, Var.AsResource, PostWork, compare_eq_zero_iff]
  by_cases h : c = "clone" <;> simp [h]

/-- C1: a dictionary payload whose filesystem is a resource and whose fullPath, url and
cmd are strings makes HandleMessage post nothing and append exactly one task: the
GitClone task with the payload's fullPath and url when cmd is exactly "clone", and
otherwise (also for "Clone", "clone " and the empty string) the ChromefsInit task
with the payload's filesystem and fullPath. -/
theorem HandleMessage_valid_payload (s : State) (kv : List (String × Var))
    (fs : Int) (p u c : String)
    (hfs : (Var.dictionary kv).Get "filesystem" = Var.resource fs)
    (hp : (Var.dictionary kv).Get "fullPath" = Var.string p)
    (hu : (Var.dictionary kv).Get "url" = Var.string u)
    (hc : (Var.dictionary kv).Get "cmd" = Var.string c) :
    HandleMessage s (Var.dictionary kv) =
        { s with queue := s.queue ++
            [if c = "clone" then Task.GitClone p u else Task.ChromefsInit fs p] }
      ∧ (HandleMessage s (Var.dictionary kv)).posted = s.posted
      ∧ (c = "clone" →
          (HandleMessage s (Var.dictionary kv)).queue = s.queue ++ [Task.GitClone p u])
      ∧ (c ≠ "clone" →
          (HandleMessage s (Var.dictionary kv)).queue = s.queue ++ [Task.ChromefsInit fs p])
      ∧ (c = "Clone" ∨ c = "clone " ∨ c = "" →
          (HandleMessage s (Var.dictionary kv)).queue = s.queue ++ [Task.ChromefsInit fs p]) := by
  have key := HandleMessage_enqueues s kv fs p u c hfs hp hu hc
  refine ⟨key, ?_, ?_, ?_, ?_⟩
  · rw [key]
  · intro h; rw [key]; simp [h]
  · intro h; rw [key]; simp [h]
  · intro h
    have hne : c ≠ "clone" := by
      rcases h with h | h | h <;> rw [h] <;> decide
    rw [key]; simp [hne]

/-- Witness for C1 at a clone command and at a command whose cmd is "Clone". -/
theorem HandleMessage_valid_payload_witness :
    HandleMessage FileIoInstance (Var.dictionary
        [("filesystem", Var.resource 7), ("fullPath", Var.string "/ephemeral/repo"),
         ("url", Var.string "https://example/repo.git"), ("cmd", Var.string "clone")]) =
      { FileIoInstance with queue := FileIoInstance.queue ++
          [if "clone" = "clone" then Task.GitClone "/ephemeral/repo" "https://example/repo.git"
           else Task.ChromefsInit 7 "/ephemeral/repo"] }
    ∧ (HandleMessage FileIoInstance (Var.dictionary
        [("filesystem", Var.resource 7), ("fullPath", Var.string "/a"),
         ("url", Var.string "u"), ("cmd", Var.string "Clone")])).queue =
      FileIoInstance.queue ++ [Task.ChromefsInit 7 "/a"] :=
  ⟨(HandleMessage_valid_payload FileIoInstance
      [("filesystem", Var.resource 7), ("fullPath", Var.string "/ephemeral/repo"),
       ("url", Var.string "https://example/repo.git"), ("cmd", Var.string "clone")]
      7 "/ephemeral/repo" "https://example/repo.git" "clone"
      (by simp [Var.Get, Var.lookup]) (by simp [Var.Get, Var.lookup])
      (by simp [Var.Get, Var.lookup]) (by simp [Var.Get, Var.lookup])).1,
   (HandleMessage_valid_payload FileIoInstance
      [("filesystem", Var.resource 7), ("fullPath", Var.string "/a"),
       ("url", Var.string "u"), ("cmd", Var.string "Clone")]
      7 "/a" "u" "Clone"
      (by simp [Var.Get, Var.lookup]) (by simp [Var.Get, Var.lookup])
      (by simp [Var.Get, Var.lookup]) (by simp [Var.Get, Var.lookup])).2.2.2.2
      (Or.inl rfl)⟩

/-- C2: HandleMessage checks, in this order, that the payload is a dictionary, that
filesystem is a resource, that fullPath, url and cmd are strings; at the first check
that fails it posts exactly that check's message and changes nothing else, so no
task is enqueued. A command that passes the first four checks and has no cmd field
gets the cmd message with the queue length unchanged. -/
theorem HandleMessage_first_failing_check (s : State) (v : Var) :
    (v.is_dictionary = false →
        HandleMessage s v =
          { s with posted := s.posted ++ ["Error: Message was not a dictionary."] })
    ∧ (v.is_dictionary = true → (v.Get "filesystem").is_resource = false →
        HandleMessage s v =
          { s with posted := s.posted ++
              ["Error: filesystem was missing or not a resource."] })
    ∧ (v.is_dictionary = true → (v.Get "filesystem").is_resource = true →
        (v.Get "fullPath").is_string = false →
        HandleMessage s v =
          { s with posted := s.posted ++ ["Error: fullPath was missing or not a string."] })
    ∧ (v.is_dictionary = true → (v.Get "filesystem").is_resource = true →
        (v.Get "fullPath").is_string = true → (v.Get "url").is_string = false →
        HandleMessage s v =
          { s with posted := s.posted ++ ["Error: url was missing or not a string."] })
    ∧ (v.is_dictionary = true → (v.Get "filesystem").is_resource = true →
        (v.Get "fullPath").is_string = true → (v.Get "url").is_string = true →
        (v.Get "cmd").is_string = false →
        HandleMessage s v =
          { s with posted := s.posted ++ ["Error: cmd was missing or not a string."] })
    ∧ (v.is_dictionary = true → (v.Get "filesystem").is_resource = true →
        (v.Get "fullPath").is_string = true → (v.Get "url").is_string = true →
        v.Get "cmd" = Var.undefined →
        (HandleMessage s v).posted =
            s.posted ++ ["Error: cmd was missing or not a string."]
          ∧ (HandleMessage s v).queue = s.queue
          ∧ (HandleMessage s v).queue.length = s.queue.length) := by
  refine ⟨?_, ?_, ?_, ?_, ?_, ?_⟩
  · intro h1
    simp [HandleMessage, h1, PostMessage]
  · intro h1 h2
    simp [HandleMessage, h1, h2, PostMessage]
  · intro h1 h2 h3
    simp [HandleMessage, h1, h2, h3, PostMessage]
  · intro h1 h2 h3 h4
    simp [HandleMessage, h1, h2, h3, h4, PostMessage]
  · intro h1 h2 h3 h4 h5
    simp [HandleMessage, h1, h2, h3, h4, h5, PostMessage]
  · intro h1 h2 h3 h4 h5
    have h6 : (v.Get "cmd").is_string = false := by rw [h5]; rfl
    simp [HandleMessage, h1, h2, h3, h4, h6, PostMessage]

/-- Witness for C2: a payload that is not a dictionary, and a command without cmd. -/
theorem HandleMessage_first_failing_check_witness :
    HandleMessage FileIoInstance (Var.string "clone") =
        { FileIoInstance with posted := FileIoInstance.posted ++
            ["Error: Message was not a dictionary."] }
    ∧ ((HandleMessage (PostWork FileIoInstance Task.OpenFileSystem) (Var.dictionary
          [("filesystem", Var.resource 7), ("fullPath", Var.string "/a"),
           ("url", Var.string "u")])).posted =
          (PostWork FileIoInstance Task.OpenFileSystem).posted ++
            ["Error: cmd was missing or not a string."]
        ∧ (HandleMessage (PostWork FileIoInstance Task.OpenFileSystem) (Var.dictionary
          [("filesystem", Var.resource 7), ("fullPath", Var.string "/a"),
           ("url", Var.string "u")])).queue =
          (PostWork FileIoInstance Task.OpenFileSystem).queue
        ∧ (HandleMessage (PostWork FileIoInstance Task.OpenFileSystem) (Var.dictionary
          [("filesystem", Var.resource 7), ("fullPath", Var.string "/a"),
           ("url", Var.string "u")])).queue.length =
          (PostWork FileIoInstance Task.OpenFileSystem).queue.length) :=
  ⟨(HandleMessage_first_failing_check FileIoInstance (Var.string "clone")).1 rfl,
   (HandleMessage_first_failing_check (PostWork FileIoInstance Task.OpenFileSystem)
      (Var.dictionary
        [("filesystem", Var.resource 7), ("fullPath", Var.string "/a"),
         ("url", Var.string "u")])).2.2.2.2.2 rfl
      (by simp [Var.Get, Var.lookup, Var.is_resource])
      (by simp [Var.Get, Var.lookup, Var.is_string])
      (by simp [Var.Get, Var.lookup, Var.is_string])
      (by simp [Var.Get, Var.lookup])⟩

/-- C3, as stated, fails: a clone command with string fullPath, url and cmd but no
filesystem field is rejected with the filesystem message and no task, and a mount
command with a resource filesystem but no url field is rejected with the url message
and no task. -/
theorem HandleMessage_optional_fields_counterexample :
    (HandleMessage FileIoInstance (Var.dictionary
        [("fullPath", Var.string "/r"), ("url", Var.string "u"),
         ("cmd", Var.string "clone")]) =
      { FileIoInstance with
          posted := ["Error: filesystem was missing or not a resource."] })
    ∧ ¬ ((HandleMessage FileIoInstance (Var.dictionary
        [("fullPath", Var.string "/r"), ("url", Var.string "u"),
         ("cmd", Var.string "clone")])).queue = [Task.GitClone "/r" "u"]
        ∧ (HandleMessage FileIoInstance (Var.dictionary
        [("fullPath", Var.string "/r"), ("url", Var.string "u"),
         ("cmd", Var.string "clone")])).posted = [])
    ∧ (HandleMessage FileIoInstance (Var.dictionary
        [("filesystem", Var.resource 7), ("fullPath", Var.string "/r"),
         ("cmd", Var.string "mount")]) =
      { FileIoInstance with posted := ["Error: url was missing or not a string."] })
    ∧ ¬ ((HandleMessage FileIoInstance (Var.dictionary
        [("filesystem", Var.resource 7), ("fullPath", Var.string "/r"),
         ("cmd", Var.string "mount")])).queue = [Task.ChromefsInit 7 "/r"]
        ∧ (HandleMessage FileIoInstance (Var.dictionary
        [("filesystem", Var.resource 7), ("fullPath", Var.string "/r"),
         ("cmd", Var.string "mount")])).posted = []) := by
  have h1 : HandleMessage FileIoInstance (Var.dictionary
        [("fullPath", Var.string "/r"), ("url", Var.string "u"),
         ("cmd", Var.string "clone")]) =
      { FileIoInstance with
          posted := ["Error: filesystem was missing or not a resource."] } := by
    simp [HandleMessage, Var.is_dictionary, Var.Get, Var.lookup, Var.is_resource,
      PostMessage, FileIoInstance]
  have h2 : HandleMessage FileIoInstance (Var.dictionary
        [("filesystem", Var.resource 7), ("fullPath", Var.string "/r"),
         ("cmd", Var.string "mount")]) =
      { FileIoInstance with posted := ["Error: url was missing or not a string."] } := by
    simp [HandleMessage, Var.is_dictionary, Var.Get, Var.lookup, Var.is_resource,
      Var.is_string, PostMessage, FileIoInstance]
  refine ⟨h1, ?_, h2, ?_⟩
  · rw [h1]; simp [FileIoInstance]
  · rw [h2]; simp [FileIoInstance]

/-- C3, amended: HandleMessage requires all four fields whatever the command. For a
dictionary payload with a string cmd and a string fullPath: when filesystem is absent
or not a resource it posts the filesystem message and enqueues nothing, also for cmd
"clone"; when filesystem is a resource and url is absent or not a string it posts
the url message and enqueues nothing, also for a mount command; when filesystem is a
resource and url is a string it posts nothing and enqueues the Clone task for cmd
"clone" and the mount task for any other cmd. -/
theorem HandleMessage_requires_all_fields (s : State) (kv : List (String × Var))
    (p c : String)
    (hp : (Var.dictionary kv).Get "fullPath" = Var.string p)
    (hc : (Var.dictionary kv).Get "cmd" = Var.string c) :
    (((Var.dictionary kv).Get "filesystem").is_resource = false →
        HandleMessage s (Var.dictionary kv) =
          { s with posted := s.posted ++
              ["Error: filesystem was missing or not a resource."] })
    ∧ (∀ fs : Int, (Var.dictionary kv).Get "filesystem" = Var.resource fs →
        ((Var.dictionary kv).Get "url").is_string = false →
        HandleMessage s (Var.dictionary kv) =
          { s with posted := s.posted ++ ["Error: url was missing or not a string."] })
    ∧ (∀ (fs : Int) (u : String), (Var.dictionary kv).Get "filesystem" = Var.resource fs →
        (Var.dictionary kv).Get "url" = Var.string u →
        HandleMessage s (Var.dictionary kv) =
          { s with queue := s.queue ++
              [if c = "clone" then Task.GitClone p u else Task.ChromefsInit fs p] }) := by
  refine ⟨?_, ?_, ?_⟩
  · intro h
    simp [HandleMessage, Var.is_dictionary, h, PostMessage]
  · intro fs hfs hu
    have hfsR : ((Var.dictionary kv).Get "filesystem").is_resource = true := by
      rw [hfs]; rfl
    have hpS : ((Var.dictionary kv).Get "fullPath").is_string = true := by
      rw [hp]; rfl
    simp [HandleMessage, Var.is_dictionary, hfsR, hpS, hu, PostMessage]
  · intro fs u hfs hu
    exact HandleMessage_enqueues s kv fs p u c hfs hp hu hc

/-- Witness for the amended C3 at a clone command without a filesystem field. -/
theorem HandleMessage_requires_all_fields_witness :
    HandleMessage FileIoInstance (Var.dictionary
        [("fullPath", Var.string "/r"), ("url", Var.string "u"),
         ("cmd", Var.string "clone")]) =
      { FileIoInstance with posted := FileIoInstance.posted ++
          ["Error: filesystem was missing or not a resource."] } :=
  (HandleMessage_requires_all_fields FileIoInstance
      [("fullPath", Var.string "/r"), ("url", Var.string "u"), ("cmd", Var.string "clone")]
      "/r" "clone" (by simp [Var.Get, Var.lookup]) (by simp [Var.Get, Var.lookup])).1
    (by simp [Var.Get, Var.lookup, Var.is_resource])

/-! ## The status protocol: theorems -/

/-- C6: ShowErrorMessage(m, c) posts exactly one message, "ERR|" followed by m,
" -- Error #: " and the decimal rendering of c (a leading '-' for a negative code);
ShowStatusMessage(m) posts exactly one message, "STAT|" followed by m. The message
is carried verbatim, also when it contains '|' or is empty. -/
theorem ShowMessage_wire_format (s : State) (m : String) (c : Int) :
    ShowErrorMessage s m c =
        { s with posted := s.posted ++ ["ERR|" ++ m ++ " -- Error #: " ++ decimalText c] }
    ∧ ShowStatusMessage s m = { s with posted := s.posted ++ ["STAT|" ++ m] }
    ∧ (ShowErrorMessage s m c).posted.length = s.posted.length + 1
    ∧ (ShowStatusMessage s m).posted.length = s.posted.length + 1
    ∧ (ShowErrorMessage s "a|b" (-2147483648)).posted =
        s.posted ++ ["ERR|a|b -- Error #: -2147483648"]
    ∧ (ShowErrorMessage s "" 2147483647).posted = s.posted ++ ["ERR| -- Error #: 2147483647"]
    ∧ (ShowStatusMessage s "a|b").posted = s.posted ++ ["STAT|a|b"]
    ∧ (ShowStatusMessage s "").posted = s.posted ++ ["STAT|"] := by
  refine ⟨?_, rfl, ?_, ?_, ?_, ?_, ?_, ?_⟩
  · simp only [ShowErrorMessage, PostMessage, decimal_eq_decimalText]
  · simp [ShowErrorMessage, PostMessage]
  · simp [ShowStatusMessage, PostMessage]
  · have h : "ERR|" ++ "a|b" ++ " -- Error #: " ++ decimal (-2147483648) =
        "ERR|a|b -- Error #: -2147483648" := by decide
    simp only [ShowErrorMessage, PostMessage, h]
  · have h : "ERR|" ++ "" ++ " -- Error #: " ++ decimal 2147483647 =
        "ERR| -- Error #: 2147483647" := by decide
    simp only [ShowErrorMessage, PostMessage, h]
  · have h : "STAT|" ++ "a|b" = "STAT|a|b" := by decide
    simp only [ShowStatusMessage, PostMessage, h]
  · have h : "STAT|" ++ "" = "STAT|" := by decide
    simp only [ShowStatusMessage, PostMessage, h]

lemma err_ne_ready (t : String) : "ERR|" ++ t ≠ "READY|" := by
  intro h
  have h2 := congrArg (fun x : String => x.data.head?) h
  simp [String.data_append] at h2

/-! ## The open task: theorems -/

/-- C7: when opening the default area returns PP_OK (0) the OpenFileSystem task posts
`READY|` exactly once and sets the readiness flag; for every other result it posts
exactly `ERR|Failed to open file system -- Error #: <rv>`, which is not `READY|`,
and leaves the flag as it was, false since the constructor. So the flag is true after
the task if and only if the result is PP_OK. -/
theorem OpenFileSystem_ready_iff_ok (env : Env) (s : State) :
    PP_OK = 0
    ∧ (env.open_rv = PP_OK →
        (OpenFileSystem env s).posted = s.posted ++ ["READY|"]
        ∧ (OpenFileSystem env s).file_system_ready_ = true)
    ∧ (env.open_rv ≠ PP_OK →
        (OpenFileSystem env s).posted = s.posted ++
          ["ERR|Failed to open file system -- Error #: " ++ decimalText env.open_rv]
        ∧ "ERR|Failed to open file system -- Error #: " ++ decimalText env.open_rv ≠ "READY|"
        ∧ (OpenFileSystem env s).file_system_ready_ = s.file_system_ready_)
    ∧ (OpenFileSystem env s).posted.count "READY|" =
        s.posted.count "READY|" + (if env.open_rv = PP_OK then 1 else 0)
    ∧ (s.file_system_ready_ = false →
        ((OpenFileSystem env s).file_system_ready_ = true ↔ env.open_rv = PP_OK)) := by
  have hne : "ERR|Failed to open file system -- Error #: " ++ decimalText env.open_rv
      ≠ "READY|" := by
    have h : "ERR|Failed to open file system -- Error #: " =
        "ERR|" ++ "Failed to open file system -- Error #: " := by decide
    rw [h, String.append_assoc]
    exact err_ne_ready _
  refine ⟨rfl, ?_, ?_, ?_, ?_⟩
  · intro h
    simp [OpenFileSystem, NaclIoInit, printf, PostMessage, h]
  · intro h
    refine ⟨?_, hne, ?_⟩
    · simp only [OpenFileSystem, NaclIoInit, printf, ShowErrorMessage, PostMessage, h,
        if_false, decimal_eq_decimalText]
      congr 2
    · simp [OpenFileSystem, NaclIoInit, printf, ShowErrorMessage, PostMessage, h]
  · by_cases h : env.open_rv = PP_OK
    · simp [OpenFileSystem, NaclIoInit, printf, PostMessage, h]
    · simp only [OpenFileSystem, NaclIoInit, printf, ShowErrorMessage, PostMessage, h,
        if_false, List.count_append, add_zero]
      rw [List.count_singleton]
      simp [decimal_eq_decimalText, hne]
  · intro hs
    by_cases h : env.open_rv = PP_OK
    · simp [OpenFileSystem, NaclIoInit, printf, PostMessage, h]
    · simp [OpenFileSystem, NaclIoInit, printf, ShowErrorMessage, PostMessage, h, hs]

/-- Witness for C7: the open task on the state Init leaves, for the result 0 and for
the result -2. -/
theorem OpenFileSystem_ready_iff_ok_witness :
    ((OpenFileSystem (exampleEnv 0 0 none) (Init FileIoInstance).1).posted =
        (Init FileIoInstance).1.posted ++ ["READY|"]
      ∧ (OpenFileSystem (exampleEnv 0 0 none) (Init FileIoInstance).1).file_system_ready_ = true)
    ∧ ((OpenFileSystem (exampleEnv (-2) 0 none) (Init FileIoInstance).1).file_system_ready_ = true
        ↔ (-2 : Int) = PP_OK) :=
  ⟨(OpenFileSystem_ready_iff_ok (exampleEnv 0 0 none)
      (Init FileIoInstance).1).2.1 rfl,
   (OpenFileSystem_ready_iff_ok (exampleEnv (-2) 0 none)
      (Init FileIoInstance).1).2.2.2.2 rfl⟩

/-- C9, the code at any run of the open task: the calls into nacl_io are the init
call, `umount("/")`, `mount("", "/", "memfs", 0, "")`, the `/grvfs` html5fs mount
with `type=PERSISTENT,expected_size=1048576`, and a last mount call for `/http`
that has four arguments and no file system type: the request
`mount("", "/http", "httpfs", 0, "")` is not among them. -/
theorem OpenFileSystem_mount_requests (env : Env) (s : State) :
    (OpenFileSystem env s).fscalls = s.fscalls ++
      [FsCall.nacl_io_init_ppapi,
       FsCall.umount "/",
       FsCall.mount [.str "", .str "/", .str "memfs", .num 0, .str ""],
       FsCall.mount [.str "", .str "/grvfs", .str "html5fs", .num 0,
         .str "type=PERSISTENT,expected_size=1048576"],
       FsCall.mount [.str "", .str "/http", .num 0, .str ""]]
    ∧ FsCall.mount [.str "", .str "/http", .str "httpfs", .num 0, .str ""] ∉
        (OpenFileSystem env FileIoInstance).fscalls
    ∧ ∀ c ∈ (OpenFileSystem env FileIoInstance).fscalls,
        ∀ args, c = FsCall.mount args → CArg.str "httpfs" ∉ args := by
  have key : ∀ s : State, (OpenFileSystem env s).fscalls = s.fscalls ++
      [FsCall.nacl_io_init_ppapi,
       FsCall.umount "/",
       FsCall.mount [.str "", .str "/", .str "memfs", .num 0, .str ""],
       FsCall.mount [.str "", .str "/grvfs", .str "html5fs", .num 0,
         .str "type=PERSISTENT,expected_size=1048576"],
       FsCall.mount [.str "", .str "/http", .num 0, .str ""]] := by
    intro s
    by_cases h : env.open_rv = PP_OK <;>
      simp [OpenFileSystem, NaclIoInit, printf, ShowErrorMessage, PostMessage, h]
  refine ⟨key s, ?_, ?_⟩
  · rw [key]; decide
  · intro c hc args hca
    rw [key] at hc
    simp only [FileIoInstance, List.nil_append, List.mem_cons, List.mem_singleton,
      List.not_mem_nil, or_false] at hc
    rcases hc with h | h | h | h | h <;> subst h <;> cases hca <;> decide

/-- What the open task leaves alone: the queue, the log of tasks run and the engine
calls; the readiness flag is set on success and kept otherwise. -/
lemma OpenFileSystem_frame (env : Env) (s : State) :
    (OpenFileSystem env s).queue = s.queue
    ∧ (OpenFileSystem env s).ran = s.ran
    ∧ (OpenFileSystem env s).gitcalls = s.gitcalls
    ∧ (OpenFileSystem env s).file_system_ready_ =
        (if env.open_rv = PP_OK then true else s.file_system_ready_) := by
  by_cases h : env.open_rv = PP_OK <;>
    simp [OpenFileSystem, NaclIoInit, printf, ShowErrorMessage, PostMessage, h]

/-! ## The clone tasks: theorems -/

/-- What a run of GitClone without undefined behaviour looks like: both C strings fit
their `sizeof(size_t)`-byte buffers, `giterr_last()` is not null, and the task only
posts `cloning` to the file thread and writes three lines to standard output. -/
lemma GitClone_eq_some (env : Env) (s s1 : State) (p u : String)
    (h : GitClone env s p u = some s1) :
    strlen (c_str p) + 1 ≤ env.sizeof_size_t
    ∧ strlen (c_str u) + 1 ≤ env.sizeof_size_t
    ∧ ∃ a, env.giterr_last s.gitcalls = some a
      ∧ s1 = { s with
          queue := s.queue ++ [Task.cloning (c_str p) (c_str u)],
          stdout := s.stdout ++
            ["Lengths: " ++ decimal (strlen (c_str p)) ++ " "
                ++ decimal (strlen (c_str u)) ++ "\n",
             "calling git clone " ++ c_str p ++ " " ++ c_str u ++ "\n",
             a.message ++ "\n"] } := by
  unfold GitClone at h
  by_cases hp : strlen (c_str p) + 1 ≤ env.sizeof_size_t
  · by_cases hu : strlen (c_str u) + 1 ≤ env.sizeof_size_t
    · simp only [strcpy, hp, hu, if_true, do_clone, PostWork, printf] at h
      cases ha : env.giterr_last s.gitcalls with
      | none => simp [ha] at h
      | some a =>
        simp only [ha, Option.some.injEq] at h
        refine ⟨hp, hu, a, rfl, ?_⟩
        rw [← h]
        simp
    · simp [strcpy, hp, hu] at h
  · simp [strcpy, hp] at h

/-- C4, the code at a clone command with fullPath "/ephemeral/repo" and url
"https://example/repo.git": wherever `size_t` has at most 15 bytes the 16 bytes of
the path and its NUL do not fit the `sizeof(size_t)`-byte buffer `strcpy` writes
them to, so GitClone has undefined behaviour, and so has every run of the file
thread that reaches this task. -/
theorem GitClone_buffer_overflow (env : Env) (s : State) (h : env.sizeof_size_t ≤ 15) :
    strlen (c_str "/ephemeral/repo") = 15
    ∧ strlen (c_str "https://example/repo.git") = 24
    ∧ GitClone env s "/ephemeral/repo" "https://example/repo.git" = none
    ∧ run env (Init FileIoInstance).1
        [Event.message (command 7 "/ephemeral/repo" "https://example/repo.git" "clone"),
         Event.work, Event.work] = none := by
  have h15 : strlen (c_str "/ephemeral/repo") = 15 := by decide
  have hno : strcpy env.sizeof_size_t (c_str "/ephemeral/repo") = none := by
    unfold strcpy
    rw [h15, if_neg]
    omega
  have hG : ∀ s : State,
      GitClone env s "/ephemeral/repo" "https://example/repo.git" = none := by
    intro s
    unfold GitClone
    simp only [hno]
  refine ⟨h15, by decide, hG s, ?_⟩
  have hm : HandleMessage (Init FileIoInstance).1
      (command 7 "/ephemeral/repo" "https://example/repo.git" "clone") =
      { FileIoInstance with queue :=
          [Task.OpenFileSystem,
           Task.GitClone "/ephemeral/repo" "https://example/repo.git"] } := by
    decide
  have h3 : workerStep env (OpenFileSystem env
      { FileIoInstance with
          queue := [Task.GitClone "/ephemeral/repo" "https://example/repo.git"],
          ran := [Task.OpenFileSystem] }) = none := by
    simp only [workerStep, (OpenFileSystem_frame env _).1, runTask, hG]
  have h2 : workerStep env { FileIoInstance with queue :=
          [Task.OpenFileSystem,
           Task.GitClone "/ephemeral/repo" "https://example/repo.git"] } =
      some (OpenFileSystem env
      { FileIoInstance with
          queue := [Task.GitClone "/ephemeral/repo" "https://example/repo.git"],
          ran := [Task.OpenFileSystem] }) := rfl
  simp only [run, step, hm, h2, h3, Option.bind]

/-- Witness for C4 at the 4-byte `size_t` of NaCl. -/
theorem GitClone_buffer_overflow_witness :
    (exampleEnv 0 0 (some ⟨"earlier error", 1⟩)).sizeof_size_t ≤ 15
    ∧ GitClone (exampleEnv 0 0 (some ⟨"earlier error", 1⟩)) FileIoInstance
        "/ephemeral/repo" "https://example/repo.git" = none :=
  ⟨by decide,
   (GitClone_buffer_overflow (exampleEnv 0 0 (some ⟨"earlier error", 1⟩)) FileIoInstance
    (by decide)).2.2.1⟩

/-- The argument order on the clone path: when GitClone runs without undefined
behaviour on an otherwise idle file thread, the next step of the file thread runs
the `cloning` task it posted, which calls `git_clone` once, with the command's url
as url and its fullPath as local path (as C strings). -/
theorem clone_arguments_in_order (env : Env) (s s1 : State) (p u : String)
    (hq : s.queue = []) (h : GitClone env s p u = some s1) :
    (workerStep env s1).map (fun s2 => (s2.gitcalls, s2.queue)) =
      some (s.gitcalls ++ [{ url := c_str u, local_path := c_str p }], []) := by
  obtain ⟨_, _, a, _, hs1⟩ := GitClone_eq_some env s s1 p u h
  rw [hs1, hq]
  simp [workerStep, runTask, cloning]

/-- The total reading of GitClone agrees with `GitClone`: the method has a result
exactly when it runs to its end, and then it is the state reached. -/
lemma GitClone_eq_progress (env : Env) (s : State) (p u : String) :
    GitClone env s p u =
      (if (GitCloneProgress env s p u).2 then some (GitCloneProgress env s p u).1
       else none) := by
  by_cases hp : strlen (c_str p) + 1 ≤ env.sizeof_size_t
  · by_cases hu : strlen (c_str u) + 1 ≤ env.sizeof_size_t
    · simp only [GitClone, GitCloneProgress, strcpy, hp, hu, if_true, do_clone, PostWork,
        printf]
      cases ha : env.giterr_last s.gitcalls <;> simp
    · simp [GitClone, GitCloneProgress, strcpy, hp, hu]
  · simp [GitClone, GitCloneProgress, strcpy, hp]

lemma runTask_eq_progress (env : Env) (s : State) (t : Task) :
    runTask env s t =
      (if (runTaskProgress env s t).2 then some (runTaskProgress env s t).1 else none) := by
  cases t with
  | OpenFileSystem => simp [runTask, runTaskProgress]
  | GitClone path url =>
    simp only [runTask, runTaskProgress]
    exact GitClone_eq_progress env s path url
  | ChromefsInit fs fullPath => simp [runTask, runTaskProgress]
  | cloning path url => simp [runTask, runTaskProgress]

lemma workerStep_eq_progress (env : Env) (s : State) :
    workerStep env s =
      (if (workerStepProgress env s).2 then some (workerStepProgress env s).1
       else none) := by
  unfold workerStep workerStepProgress
  cases hq : s.queue with
  | nil => simp
  | cons t rest =>
    simp only
    exact runTask_eq_progress env _ t

/-- The total reading of a run agrees with `run`: a run has a result exactly when no
task met undefined behaviour, and then it is the state reached. -/
lemma run_eq_progress (env : Env) (evs : List Event) (s : State) :
    run env s evs =
      (if (runProgress env s evs).2 then some (runProgress env s evs).1 else none) := by
  induction evs generalizing s with
  | nil => simp [run, runProgress]
  | cons e es ih =>
    cases e with
    | message v =>
      simp only [run, step, runProgress, Option.bind]
      exact ih _
    | work =>
      simp only [run, step, runProgress]
      rw [workerStep_eq_progress]
      rcases hw : workerStepProgress env s with ⟨s1, b⟩
      cases b with
      | false => simp [Option.bind]
      | true =>
        simp only [if_true, Option.bind]
        exact ih _

/-- HandleMessage touches only the posted messages and the end of the queue. -/
lemma HandleMessage_frame (s : State) (v : Var) :
    (HandleMessage s v).ran = s.ran
    ∧ (HandleMessage s v).file_system_ready_ = s.file_system_ready_
    ∧ ∃ l, (HandleMessage s v).queue = s.queue ++ l ∧ l.length ≤ 1 := by
  simp only [HandleMessage]
  split_ifs <;>
    first
      | exact ⟨rfl, rfl, [], (List.append_nil _).symm, Nat.zero_le _⟩
      | exact ⟨rfl, rfl, [_], rfl, Nat.le_refl _⟩

/-- A task leaves the log of tasks run alone, and only the open task writes the
readiness flag. -/
lemma runTask_frame (env : Env) (s s1 : State) (t : Task) (h : runTask env s t = some s1) :
    s1.ran = s.ran
    ∧ (t ≠ Task.OpenFileSystem → s1.file_system_ready_ = s.file_system_ready_)
    ∧ (t = Task.OpenFileSystem → s1.file_system_ready_ =
        (if env.open_rv = PP_OK then true else s.file_system_ready_)) := by
  cases t with
  | OpenFileSystem =>
    simp only [runTask, Option.some.injEq] at h
    subst h
    exact ⟨(OpenFileSystem_frame env s).2.1, fun hne => absurd rfl hne,
      fun _ => (OpenFileSystem_frame env s).2.2.2⟩
  | GitClone path url =>
    simp only [runTask] at h
    obtain ⟨_, _, a, _, hs1⟩ := GitClone_eq_some env s s1 path url h
    subst hs1
    exact ⟨rfl, fun _ => rfl, fun hc => by cases hc⟩
  | ChromefsInit fs fullPath =>
    simp only [runTask, Option.some.injEq] at h
    subst h
    exact ⟨rfl, fun _ => rfl, fun hc => by cases hc⟩
  | cloning path url =>
    simp only [runTask, Option.some.injEq] at h
    subst h
    exact ⟨rfl, fun _ => rfl, fun hc => by cases hc⟩

lemma HandleMessage_OpenFirst (env : Env) (s : State) (v : Var) (hinv : OpenFirst env s) :
    OpenFirst env (HandleMessage s v) := by
  obtain ⟨hran, hready, l, hq, _⟩ := HandleMessage_frame s v
  rcases hinv with ⟨h1, ⟨rest, h2⟩, h3⟩ | ⟨h1, h2⟩
  · left
    refine ⟨by rw [hran, h1], ⟨rest ++ l, by rw [hq, h2]; rfl⟩, by rw [hready, h3]⟩
  · right
    refine ⟨by rw [hran]; exact h1, by rw [hready]; exact h2⟩

lemma workerStep_OpenFirst (env : Env) (s s1 : State) (hinv : OpenFirst env s)
    (h : workerStep env s = some s1) : OpenFirst env s1 := by
  unfold workerStep at h
  cases hq : s.queue with
  | nil =>
    rw [hq] at h
    simp only [Option.some.injEq] at h
    rw [← h]; exact hinv
  | cons t rest =>
    rw [hq] at h
    simp only at h
    obtain ⟨hran, hne, heq⟩ := runTask_frame env _ s1 t h
    simp only at hran hne heq
    rcases hinv with ⟨h1, ⟨rest2, h2⟩, h3⟩ | ⟨⟨r, h1⟩, h2⟩
    · right
      rw [hq] at h2
      injection h2 with ht _
      refine ⟨⟨[], by rw [hran, h1, ht]; rfl⟩, ?_⟩
      rw [heq ht, h3]
      by_cases hrv : env.open_rv = PP_OK <;> simp [hrv]
    · right
      refine ⟨⟨r ++ [t], by rw [hran, h1]; rfl⟩, ?_⟩
      by_cases ht : t = Task.OpenFileSystem
      · rw [heq ht]
        by_cases hrv : env.open_rv = PP_OK
        · simp [hrv]
        · rw [if_neg hrv]; exact h2
      · rw [hne ht]; exact h2

lemma run_OpenFirst (env : Env) (evs : List Event) (s s1 : State) (hinv : OpenFirst env s)
    (h : run env s evs = some s1) : OpenFirst env s1 := by
  induction evs generalizing s with
  | nil =>
    simp only [run, Option.some.injEq] at h
    rw [← h]; exact hinv
  | cons e es ih =>
    simp only [run] at h
    cases e with
    | message v =>
      simp only [step, Option.bind] at h
      exact ih _ (HandleMessage_OpenFirst env s v hinv) h
    | work =>
      simp only [step] at h
      cases hw : workerStep env s with
      | none => rw [hw] at h; simp [Option.bind] at h
      | some s2 =>
        rw [hw] at h
        simp only [Option.bind] at h
        exact ih _ (workerStep_OpenFirst env s s2 hinv hw) h

/-- C8: Init posts exactly one task, OpenFileSystem, to the empty queue of the file
thread, and HandleMessage only appends to the end of the queue (at most one task).
Hence in every state reached from Init by inbound messages and steps of the file
thread, in any interleaving: the open task is the first task the file thread ran, or
nothing has run and the open task is the oldest work; and whenever the next task to
start is another one (a Clone or mount task), the open task has already run and the
root area is Ready or Failed, not Uninitialized, Ready exactly when the open
returned PP_OK. -/
theorem open_task_runs_first (env : Env) (evs : List Event) (s : State)
    (h : run env (Init FileIoInstance).1 evs = some s) :
    (Init FileIoInstance).1.queue = [Task.OpenFileSystem]
    ∧ (∀ (s0 : State) (v : Var), ∃ l,
        (HandleMessage s0 v).queue = s0.queue ++ l ∧ l.length ≤ 1)
    ∧ ((s.ran = [] ∧ s.queue.head? = some Task.OpenFileSystem)
        ∨ s.ran.head? = some Task.OpenFileSystem)
    ∧ (∀ t, s.queue.head? = some t → t ≠ Task.OpenFileSystem →
        Task.OpenFileSystem ∈ s.ran
        ∧ (readiness s = ReadinessState.Ready ∨ readiness s = ReadinessState.Failed)
        ∧ readiness s ≠ ReadinessState.Uninitialized)
    ∧ (readiness s = ReadinessState.Ready → env.open_rv = PP_OK)
    ∧ (readiness s = ReadinessState.Failed → env.open_rv ≠ PP_OK) := by
  have h0 : OpenFirst env (Init FileIoInstance).1 :=
    Or.inl ⟨rfl, ⟨[], rfl⟩, rfl⟩
  have hinv := run_OpenFirst env evs _ s h0 h
  refine ⟨rfl, fun s0 v => (HandleMessage_frame s0 v).2.2, ?_, ?_, ?_, ?_⟩
  · rcases hinv with ⟨h1, ⟨rest, h2⟩, _⟩ | ⟨⟨r, h1⟩, _⟩
    · left; exact ⟨h1, by rw [h2]; rfl⟩
    · right; rw [h1]; rfl
  · intro t ht hne
    rcases hinv with ⟨_, ⟨rest, h2⟩, _⟩ | ⟨⟨r, h1⟩, _⟩
    · rw [h2] at ht
      simp only [List.head?_cons, Option.some.injEq] at ht
      exact absurd ht.symm hne
    · have hmem : Task.OpenFileSystem ∈ s.ran := by rw [h1]; simp
      refine ⟨hmem, ?_, ?_⟩
      · unfold readiness
        by_cases hr : s.file_system_ready_ = true <;> simp [hmem, hr]
      · unfold readiness
        by_cases hr : s.file_system_ready_ = true <;> simp [hmem, hr]
  · intro hr
    unfold readiness at hr
    rcases hinv with ⟨h1, _, _⟩ | ⟨_, h2⟩
    · simp [h1] at hr
    · by_cases hmem : Task.OpenFileSystem ∈ s.ran
      · by_cases hf : s.file_system_ready_ = true
        · exact h2.mp hf
        · simp [hmem, hf] at hr
      · simp [hmem] at hr
  · intro hr
    unfold readiness at hr
    rcases hinv with ⟨h1, _, _⟩ | ⟨_, h2⟩
    · simp [h1] at hr
    · by_cases hmem : Task.OpenFileSystem ∈ s.ran
      · by_cases hf : s.file_system_ready_ = true
        · simp [hmem, hf] at hr
        · exact fun hrv => hf (h2.mpr hrv)
      · simp [hmem] at hr

/-- Witness for C8: a mount command handled before the file thread starts; after the
open task has run the mount task is next and the root area is Ready. -/
theorem open_task_runs_first_witness :
    run (exampleEnv 0 0 none) (Init FileIoInstance).1
        [Event.message (command 7 "/a" "u" "mount"), Event.work] = some mountPendingExample
    ∧ mountPendingExample.queue.head? = some (Task.ChromefsInit 7 "/a")
    ∧ (readiness mountPendingExample = ReadinessState.Ready
        ∨ readiness mountPendingExample = ReadinessState.Failed) :=
  ⟨by decide, rfl,
   ((open_task_runs_first (exampleEnv 0 0 none)
      [Event.message (command 7 "/a" "u" "mount"), Event.work] mountPendingExample
      (by decide)).2.2.2.1
    (Task.ChromefsInit 7 "/a") rfl (by decide)).2.1⟩

end GitSalt
